import Mathlib

/-!
Shallow embedding of the raspi-voice-recorder Streamlit application
(`src/app.py`) and proofs about its recording pipeline.

The embedding models:
* `AudioRecorder` (the CaptureSession: `start`, `stop`, the stream callback);
* `save_audio` (the Encoder: WAV header fields, the int16 sample cast);
* `upload_to_s3` (the Uploader: object key construction, presigned URL);
* the recording-button handler (the SessionController stop/start branches),
  as a step function on an application-plus-filesystem world state.

Samples are modelled as rationals; the numpy `astype(np.int16)` cast is
modelled as truncation toward zero followed by wrap-around modulo 2^16.
Exceptions of the audio driver, the file writer and the S3 client are
modelled by explicit behaviour parameters threaded through each step.
-/

namespace VoiceRec

/-- An audio amplitude sample (`app.py` stores float samples from the driver). -/
abbrev Sample := ℚ

/-- Truncation toward zero, the rounding of a C float-to-int cast. -/
def ratTruncate (q : ℚ) : Int := q.num.tdiv q.den

/-- Wrap an integer into the signed 16-bit range `[-32768, 32767]`,
modelling overflow of numpy's `astype(np.int16)`. -/
def wrap16 (n : Int) : Int := (n + 32768) % 65536 - 32768

/-- `app.py` line 115: `(audio_data * np.iinfo(np.int16).max).astype(np.int16)` —
scale by 32767, truncate, and wrap to int16 with no clamping. -/
def encodeSample (x : Sample) : Int := wrap16 (ratTruncate (x * 32767))

/-- The saturating alternative the source does NOT implement: clamp to
`[-32768, 32767]` instead of wrapping. -/
def clampInt16 (n : Int) : Int := max (-32768) (min 32767 n)

/-- The in-memory content of the WAV file written by `save_audio`:
the parameters set on the `wave` writer and the int16 PCM samples. -/
structure WavFile where
  nchannels : ℕ
  sampwidth : ℕ
  framerate : ℕ
  frames : List Int
deriving DecidableEq

/-- Little-endian bytes of a 16-bit unsigned field. -/
def u16bytes (n : ℕ) : List ℕ := [n % 256, n / 256 % 256]

/-- Little-endian bytes of a 32-bit unsigned field. -/
def u32bytes (n : ℕ) : List ℕ :=
  [n % 256, n / 256 % 256, n / 65536 % 256, n / 16777216 % 256]

/-- Serialization of the WAV container as the Python `wave` module writes it:
44-byte RIFF/fmt/data header followed by little-endian int16 PCM data. -/
def wavBytes (w : WavFile) : List ℕ :=
  let dataSize := w.frames.length * w.nchannels * w.sampwidth
  let byteRate := w.framerate * w.nchannels * w.sampwidth
  [82, 73, 70, 70] ++ u32bytes (36 + dataSize) ++ [87, 65, 86, 69] ++
    [102, 109, 116, 32] ++ u32bytes 16 ++ u16bytes 1 ++ u16bytes w.nchannels ++
    u32bytes w.framerate ++ u32bytes byteRate ++
    u16bytes (w.nchannels * w.sampwidth) ++ u16bytes (w.sampwidth * 8) ++
    [100, 97, 116, 97] ++ u32bytes dataSize ++
    (w.frames.map (fun v => u16bytes ((v % 65536).toNat))).flatten

/-- Read a little-endian 16-bit field of a byte stream. -/
def readU16 (bs : List ℕ) (i : ℕ) : ℕ := bs.getD i 0 + 256 * bs.getD (i + 1) 0

/-- Read a little-endian 32-bit field of a byte stream. -/
def readU32 (bs : List ℕ) (i : ℕ) : ℕ :=
  bs.getD i 0 + 256 * bs.getD (i + 1) 0 + 65536 * bs.getD (i + 2) 0 +
    16777216 * bs.getD (i + 3) 0

/-- The channel count a WAV byte stream declares (header offset 22). -/
def declaredNChannels (bs : List ℕ) : ℕ := readU16 bs 22

/-- The sample width in bytes a WAV byte stream declares (bits at offset 34). -/
def declaredSampWidth (bs : List ℕ) : ℕ := readU16 bs 34 / 8

/-- The frame rate a WAV byte stream declares (header offset 24). -/
def declaredFrameRate (bs : List ℕ) : ℕ := readU32 bs 24

/-- The PCM frame count a WAV byte stream declares: data-chunk size
(offset 40) divided by channels times sample width. -/
def declaredNFrames (bs : List ℕ) : ℕ :=
  readU32 bs 40 / (readU16 bs 22 * (readU16 bs 34 / 8))

/-- Whether the file write inside `save_audio` raises (`except` at line 118). -/
inductive SaveBehavior where
  | ok
  | writeRaises
deriving DecidableEq

/-- Result of `save_audio`: returned `False` on empty input (no file opened),
wrote the file and returned `True`, or raised after opening the file. -/
inductive SaveResult where
  | emptyInput
  | saved (w : WavFile)
  | failed
deriving DecidableEq

/-- `app.py` lines 103-120: `save_audio` refuses empty input, otherwise sets
1 channel, 2-byte width, 44100 Hz and writes the scaled-truncated samples. -/
def save_audio (audio_data : List Sample) (b : SaveBehavior) : SaveResult :=
  if audio_data.length = 0 then .emptyInput
  else
    match b with
    | .ok => .saved { nchannels := 1, sampwidth := 2, framerate := 44100,
                      frames := audio_data.map encodeSample }
    | .writeRaises => .failed

/-- State of a sounddevice input stream: started and capturing, or
created/stopped/closed and not capturing. -/
inductive StreamState where
  | active
  | stopped
deriving DecidableEq

/-- The `AudioRecorder` class of `app.py` lines 67-101: a sample buffer,
a recording flag checked by the callback, and an optional stream. -/
structure AudioRecorder where
  audio_data : List Sample
  recording : Bool
  stream : Option StreamState
deriving DecidableEq

/-- `AudioRecorder.__init__` (lines 68-72). -/
def AudioRecorder.init : AudioRecorder :=
  { audio_data := [], recording := false, stream := none }

/-- Possible behaviours of the audio driver during `start()`:
stream opens and starts, `sd.InputStream(...)` raises, or the
created stream's `.start()` raises. -/
inductive StartBehavior where
  | ok
  | openFails
  | startFails
deriving DecidableEq

/-- `AudioRecorder.start` (lines 80-90): clears the buffer, sets the flag,
opens and starts the stream.  Returns the mutated object and whether an
exception escaped.  The buffer reset and flag set happen before the stream
is opened, so they persist even when the driver raises. -/
def AudioRecorder.start (r : AudioRecorder) (b : StartBehavior) :
    AudioRecorder × Bool :=
  let r1 := { r with audio_data := [], recording := true }
  match b with
  | .openFails => (r1, true)
  | .startFails => ({ r1 with stream := some .stopped }, true)
  | .ok => ({ r1 with stream := some .active }, false)

/-- Possible behaviours of the driver during `stop()`: the stream stops and
closes, or `stream.stop()` raises. -/
inductive StopBehavior where
  | ok
  | raiseOnStop
deriving DecidableEq

/-- `AudioRecorder.stop` (lines 92-101): with no stream it returns an empty
array and cannot raise; with a stream it clears the object's recording flag,
stops and closes the stream and returns the buffer.  `none` in the second
component models an exception escaping from `stream.stop()`. -/
def AudioRecorder.stop (r : AudioRecorder) (b : StopBehavior) :
    AudioRecorder × Option (List Sample) :=
  match r.stream with
  | none => (r, some [])
  | some _ =>
    let r1 := { r with recording := false }
    match b with
    | .raiseOnStop => (r1, none)
    | .ok => ({ r1 with stream := some .stopped }, some r1.audio_data)

/-- The stream callback (lines 74-78): appends the incoming block to the
buffer only while the object's recording flag is set. -/
def AudioRecorder.feed (r : AudioRecorder) (frames : List Sample) :
    AudioRecorder :=
  if r.recording then { r with audio_data := r.audio_data ++ frames } else r

/-- Repeated callback invocations, one per captured block. -/
def AudioRecorder.feedAll (r : AudioRecorder) (blocks : List (List Sample)) :
    AudioRecorder :=
  blocks.foldl AudioRecorder.feed r

/-- A UTC wall-clock instant, the fields `strftime` reads. -/
structure UTCTime where
  year : ℕ
  month : ℕ
  day : ℕ
  hour : ℕ
  minute : ℕ
  second : ℕ
deriving DecidableEq

/-- Zero-padded two-digit decimal field (`%m`, `%d`, `%H`, `%M`, `%S`). -/
def pad2 (n : ℕ) : String := if n < 10 then "0" ++ toString n else toString n

/-- Zero-padded four-digit decimal field (`%Y`). -/
def pad4 (n : ℕ) : String :=
  if n < 10 then "000" ++ toString n
  else if n < 100 then "00" ++ toString n
  else if n < 1000 then "0" ++ toString n
  else toString n

/-- `datetime.now(pytz.UTC).strftime('%Y%m%d_%H%M%S')` (line 129). -/
def formatTimestamp (t : UTCTime) : String :=
  pad4 t.year ++ pad2 t.month ++ pad2 t.day ++ "_" ++
    pad2 t.hour ++ pad2 t.minute ++ pad2 t.second

/-- Characters after the last slash: scan the path, restarting the
accumulated component at each `/`. -/
def basenameAux : List Char → List Char → List Char
  | [], acc => acc.reverse
  | c :: cs, acc => if c = '/' then basenameAux cs [] else basenameAux cs (c :: acc)

/-- `os.path.basename`: the part of the path after the last slash. -/
def basename (s : String) : String := ⟨basenameAux s.data []⟩

/-- The fixed S3 folder (line 65). -/
def S3_FOLDER : String := "source"

/-- The S3 put target recorded for an upload call. -/
structure UploadRecord where
  bucket : String
  key : String
deriving DecidableEq

/-- A presigned retrieval URL: the object it grants access to and the
`ExpiresIn` validity window in seconds. -/
structure SignedUrl where
  bucket : String
  key : String
  expiresIn : ℕ
deriving DecidableEq

/-- Possible behaviours of the S3 client: both calls succeed,
`upload_fileobj` raises, or `generate_presigned_url` raises. -/
inductive UploadBehavior where
  | ok
  | putRaises
  | signRaises
deriving DecidableEq

/-- Outcome of one `upload_to_s3` call: the attempted put target, whether the
object was stored, and the presigned URL when no exception escaped. -/
structure UploadOutcome where
  attempt : UploadRecord
  stored : Bool
  url : Option SignedUrl
deriving DecidableEq

/-- `upload_to_s3` (lines 122-145): builds the object key from the fixed
folder, the formatted UTC timestamp and the basename of the filename, puts
the object, then requests a presigned URL with `ExpiresIn=3600`.  Any
exception propagates to the caller (`raise` at line 145), modelled as
`url = none`. -/
def upload_to_s3 (filename : String) (t : UTCTime) (bucket : String)
    (b : UploadBehavior) : UploadOutcome :=
  let objectKey := S3_FOLDER ++ "/" ++ formatTimestamp t ++ "_" ++ basename filename
  let record : UploadRecord := { bucket := bucket, key := objectKey }
  match b with
  | .ok =>
    { attempt := record
      stored := true
      url := some { bucket := bucket, key := objectKey, expiresIn := 3600 } }
  | .putRaises => { attempt := record, stored := false, url := none }
  | .signRaises => { attempt := record, stored := true, url := none }

/-- The error banners the handler can set in `st.session_state['error_message']`. -/
inductive ErrorMsg where
  | failedToStart
  | errorStopping
  | errorProcessing
  | uploadFailed
  | noAudioData
deriving DecidableEq

/-- The info banners the handler can set in `st.session_state['last_recording_status']`. -/
inductive StatusMsg where
  | recordingStarted
  | audioSaved
  | uploadedSuccessfully
deriving DecidableEq

/-- The Streamlit session state the handler reads and writes
(lines 52-61, 167-217). -/
structure AppState where
  recording : Bool
  audio_recorder : Option AudioRecorder
  error_message : Option ErrorMsg
  last_recording_status : Option StatusMsg
  download_url : Option SignedUrl
deriving DecidableEq

/-- State of the local temporary WAV file `temp_recording.wav`. -/
inductive FileState where
  | absent
  | incompleteWav
  | fullWav (w : WavFile)
deriving DecidableEq

/-- The world the handler acts on: session state, the temporary file, the
S3 calls made so far, and a ghost count of active streams that are no
longer referenced by the session state. -/
structure World where
  app : AppState
  file : FileState
  uploadAttempts : List UploadRecord
  store : List UploadRecord
  leakedActive : ℕ
deriving DecidableEq

/-- The world before any button press. -/
def initWorld : World :=
  { app := { recording := false
             audio_recorder := none
             error_message := none
             last_recording_status := none
             download_url := none }
    file := .absent
    uploadAttempts := []
    store := []
    leakedActive := 0 }

/-- Whether an optional stream is started and capturing. -/
def streamActive : Option StreamState → Bool
  | some .active => true
  | _ => false

/-- Whether the recorder held by the session state owns an active stream. -/
def sessionActive (w : World) : Bool :=
  match w.app.audio_recorder with
  | some r => streamActive r.stream
  | none => false

/-- Number of concurrently active capture streams in the world. -/
def World.activeSessions (w : World) : ℕ :=
  w.leakedActive + (if sessionActive w then 1 else 0)

/-- The filename literal at line 189. -/
def tempFilename : String := "temp_recording.wav"

/-- Environment of one button press: how the driver, the file writer and the
S3 client behave, the wall clock, and the configured bucket. -/
structure PressEnv where
  startBehavior : StartBehavior
  stopBehavior : StopBehavior
  saveBehavior : SaveBehavior
  uploadBehavior : UploadBehavior
  now : UTCTime
  bucket : String
deriving DecidableEq

/-- The recording-button handler, `app.py` lines 167-217.  The start branch
(168-179) allocates a fresh `AudioRecorder`, assigns it to the session state
and starts it; only when `start()` returns is `recording` set to `True`.
The stop branch (180-217) calls `stop()`, clears `recording`, and when
samples were captured runs `save_audio`, `upload_to_s3` and `os.remove`,
with the exception handlers of lines 200-202, 207-209 and 213-215. -/
def pressStep (w : World) (e : PressEnv) : World :=
  if w.app.recording = false then
    -- start branch: the old recorder is replaced before start() is called
    let leaked := w.leakedActive + (if sessionActive w then 1 else 0)
    let (r1, raised) := AudioRecorder.start AudioRecorder.init e.startBehavior
    if raised then
      { w with
        app := { w.app with
                   audio_recorder := some r1
                   error_message := some .failedToStart }
        leakedActive := leaked }
    else
      { w with
        app := { w.app with
                   audio_recorder := some r1
                   recording := true
                   last_recording_status := some .recordingStarted }
        leakedActive := leaked }
  else
    match w.app.audio_recorder with
    | none => w  -- `if st.session_state['audio_recorder']:` is falsy: body skipped
    | some r =>
      match AudioRecorder.stop r e.stopBehavior with
      | (r1, none) =>
        -- stream.stop() raised: line 185 never runs, outer except at 213
        { w with
          app := { w.app with
                     audio_recorder := some r1
                     error_message := some .errorStopping } }
      | (r1, some audio_data) =>
        let app1 := { w.app with audio_recorder := some r1, recording := false }
        if audio_data.length > 0 then
          match save_audio audio_data e.saveBehavior with
          | .failed =>
            -- exception after wave.open created the file; except at 207
            { w with
              app := { app1 with error_message := some .errorProcessing }
              file := .incompleteWav }
          | .saved _ =>
            let app2 := { app1 with last_recording_status := some .audioSaved }
            let o := upload_to_s3 tempFilename e.now e.bucket e.uploadBehavior
            let attempts := w.uploadAttempts ++ [o.attempt]
            let store := w.store ++ (if o.stored then [o.attempt] else [])
            match o.url with
            | some u =>
              -- upload succeeded, presigned URL truthy, then os.remove
              { w with
                app := { app2 with
                           last_recording_status := some .uploadedSuccessfully
                           download_url := some u }
                file := .absent
                uploadAttempts := attempts
                store := store }
            | none =>
              -- upload raised, caught at 200-202, then os.remove still runs
              { w with
                app := { app2 with error_message := some .uploadFailed }
                file := .absent
                uploadAttempts := attempts
                store := store }
          | .emptyInput =>
            -- unreachable: guarded by `audio_data.length > 0`
            w
        else
          { w with app := { app1 with error_message := some .noAudioData } }

/-- An externally visible event: a button press, or the audio subsystem
delivering a block of frames to the callback of the active stream. -/
inductive Event where
  | press (e : PressEnv)
  | feed (frames : List Sample)

/-- One step of the system. The driver only invokes the callback of a
started, unclosed stream. -/
def step (w : World) : Event → World
  | .press e => pressStep w e
  | .feed frames =>
    match w.app.audio_recorder with
    | some r =>
      if r.stream = some .active then
        { w with app := { w.app with audio_recorder := some (r.feed frames) } }
      else w
    | none => w

/-- Worlds reachable from the initial state by button presses and
callback invocations. -/
inductive Reachable : World → Prop
  | init : Reachable initWorld
  | next (w : World) (ev : Event) : Reachable w → Reachable (step w ev)

/-! ### Helper lemmas about the numeric cast -/

theorem ratTruncate_eq_floor (q : ℚ) (h : 0 ≤ q) : ratTruncate q = ⌊q⌋ := by
  have hnum : 0 ≤ q.num := Rat.num_nonneg.mpr h
  unfold ratTruncate
  rw [Int.tdiv_eq_ediv hnum (Int.natCast_nonneg q.den)]
  exact Rat.floor_def.symm

theorem ratTruncate_eq_ceil (q : ℚ) (h : q ≤ 0) : ratTruncate q = ⌈q⌉ := by
  have hnum : q.num ≤ 0 := Rat.num_nonpos.mpr h
  unfold ratTruncate
  have h1 : q.num.tdiv q.den = -((-q.num).tdiv q.den) := by
    rw [Int.neg_tdiv, neg_neg]
  rw [h1, Int.tdiv_eq_ediv (by omega) (Int.natCast_nonneg q.den)]
  have h2 : -q.num / (q.den : Int) = ⌊-q⌋ := by
    rw [Rat.floor_def, Rat.num_neg_eq_neg_num, Rat.den_neg_eq_den]
  rw [h2, Int.floor_neg, neg_neg]

theorem wrap16_eq_self (n : Int) (h1 : -32768 ≤ n) (h2 : n ≤ 32767) :
    wrap16 n = n := by
  unfold wrap16
  omega

theorem encodeSample_in_range (x : ℚ) (h1 : -1 ≤ x) (h2 : x ≤ 1) :
    encodeSample x = ratTruncate (x * 32767) := by
  have hub : x * 32767 ≤ 32767 := by nlinarith
  have hlb : -32767 ≤ x * 32767 := by nlinarith
  unfold encodeSample
  rcases le_or_lt 0 (x * 32767) with h | h
  · rw [ratTruncate_eq_floor _ h]
    apply wrap16_eq_self
    · have h0 : (0 : Int) ≤ ⌊x * 32767⌋ := Int.floor_nonneg.mpr h
      omega
    · have hf : ⌊x * 32767⌋ ≤ ⌊(32767 : ℚ)⌋ := Int.floor_le_floor hub
      simpa using hf
  · rw [ratTruncate_eq_ceil _ h.le]
    apply wrap16_eq_self
    · have hc : ⌈(-32767 : ℚ)⌉ ≤ ⌈x * 32767⌉ := Int.ceil_le_ceil hlb
      have hc' : ⌈(-32767 : ℚ)⌉ = -32767 := by
        rw [show ((-32767 : ℚ)) = ((-32767 : Int) : ℚ) by norm_num, Int.ceil_intCast]
      omega
    · have h0 : ⌈x * 32767⌉ ≤ 0 := Int.ceil_le.mpr (by exact_mod_cast h.le)
      omega

/-! ### Helper lemmas about the capture session -/

theorem feedAll_recording (blocks : List (List Sample)) :
    ∀ r : AudioRecorder, r.recording = true →
      r.feedAll blocks = { r with audio_data := r.audio_data ++ blocks.flatten } := by
  induction blocks with
  | nil => intro r _; simp [AudioRecorder.feedAll]
  | cons b bs ih =>
    intro r h
    have hfeed : r.feed b = { r with audio_data := r.audio_data ++ b } := by
      unfold AudioRecorder.feed
      rw [if_pos h]
    have hstep : r.feedAll (b :: bs) = (r.feed b).feedAll bs := rfl
    rw [hstep, hfeed, ih { r with audio_data := r.audio_data ++ b } h]
    simp

/-- The callback never touches the stream handle. -/
theorem feed_stream (r : AudioRecorder) (frames : List Sample) :
    (r.feed frames).stream = r.stream := by
  unfold AudioRecorder.feed
  split <;> rfl

/-- Inductive invariant of the controller: no leaked streams, no active
stream while the session says `Idle`, and a recorder object present while
the session says `Recording`. -/
def Inv (w : World) : Prop :=
  w.leakedActive = 0 ∧
  (w.app.recording = false → sessionActive w = false) ∧
  (w.app.recording = true → w.app.audio_recorder ≠ none)

theorem inv_init : Inv initWorld := by
  refine ⟨rfl, fun _ => rfl, fun h => ?_⟩
  simp [initWorld] at h

theorem inv_step (w : World) (ev : Event) (h : Inv w) : Inv (step w ev) := by
  obtain ⟨hleak, hidle, hrec⟩ := h
  cases ev with
  | feed frames =>
    unfold step
    dsimp only
    cases hr : w.app.audio_recorder with
    | none => exact ⟨hleak, hidle, hrec⟩
    | some r =>
      dsimp only
      by_cases hs : r.stream = some .active
      · rw [if_pos hs]
        refine ⟨hleak, fun hb => ?_, fun _ => by simp⟩
        have := hidle hb
        simp [sessionActive, hr] at this
        simp [sessionActive, feed_stream, this]
      · rw [if_neg hs]
        exact ⟨hleak, hidle, hrec⟩
  | press e =>
    unfold step pressStep
    dsimp only
    by_cases hb : w.app.recording = false
    · rw [if_pos hb]
      have hsa : sessionActive w = false := hidle hb
      rw [hsa]
      cases e.startBehavior <;>
        refine ⟨by simp [hleak, AudioRecorder.start, AudioRecorder.init],
          fun hb2 => ?_,
          fun hb2 => by simp [AudioRecorder.start, AudioRecorder.init]⟩ <;>
        simp_all [AudioRecorder.start, AudioRecorder.init, sessionActive, streamActive]
    · rw [if_neg hb]
      have hb' : w.app.recording = true := by
        revert hb
        cases w.app.recording <;> simp
      cases hr : w.app.audio_recorder with
      | none => exact ⟨hleak, hidle, hrec⟩
      | some r =>
        dsimp only
        cases hs : r.stream with
        | none =>
          -- stop() returns an empty buffer; the handler reports no data
          have hstop : r.stop e.stopBehavior = (r, some []) := by
            unfold AudioRecorder.stop
            rw [hs]
          rw [hstop]
          dsimp only
          exact ⟨hleak, fun _ => by simp [sessionActive, streamActive, hs],
            fun _ => by simp⟩
        | some s =>
          cases e.stopBehavior with
          | raiseOnStop =>
            -- stop() raised; session recording stays true
            have hstop : r.stop .raiseOnStop = ({ r with recording := false }, none) := by
              unfold AudioRecorder.stop
              rw [hs]
            rw [hstop]
            dsimp only
            exact ⟨hleak, fun hb2 => absurd hb2 hb,
              fun _ => by simp [sessionActive, streamActive, hs]⟩
          | ok =>
            -- stream stopped and closed; pipeline branches follow
            have hstop : r.stop .ok =
                ({ r with recording := false, stream := some .stopped },
                  some r.audio_data) := by
              unfold AudioRecorder.stop
              rw [hs]
            rw [hstop]
            dsimp only
            by_cases hlen0 : r.audio_data.length > 0
            · rw [if_pos hlen0]
              split
              · exact ⟨hleak, fun _ => by simp [sessionActive, streamActive],
                  fun _ => by simp⟩
              · split <;>
                  exact ⟨hleak, fun _ => by simp [sessionActive, streamActive],
                    fun _ => by simp⟩
              · exact ⟨hleak, hidle, hrec⟩
            · rw [if_neg hlen0]
              exact ⟨hleak, fun _ => by simp [sessionActive, streamActive],
                fun _ => by simp⟩


set_option maxHeartbeats 1000000 in
theorem readU16_wavBytes_22 (w : WavFile) :
    readU16 (wavBytes w) 22 =
      w.nchannels % 256 + 256 * (w.nchannels / 256 % 256) := rfl

set_option maxHeartbeats 1000000 in
theorem readU16_wavBytes_34 (w : WavFile) :
    readU16 (wavBytes w) 34 =
      w.sampwidth * 8 % 256 + 256 * (w.sampwidth * 8 / 256 % 256) := rfl

set_option maxHeartbeats 1000000 in
theorem readU32_wavBytes_24 (w : WavFile) :
    readU32 (wavBytes w) 24 =
      w.framerate % 256 + 256 * (w.framerate / 256 % 256) +
        65536 * (w.framerate / 65536 % 256) +
        16777216 * (w.framerate / 16777216 % 256) := rfl

set_option maxHeartbeats 1000000 in
theorem readU32_wavBytes_40 (w : WavFile) :
    readU32 (wavBytes w) 40 =
      w.frames.length * w.nchannels * w.sampwidth % 256 +
        256 * (w.frames.length * w.nchannels * w.sampwidth / 256 % 256) +
        65536 * (w.frames.length * w.nchannels * w.sampwidth / 65536 % 256) +
        16777216 * (w.frames.length * w.nchannels * w.sampwidth / 16777216 % 256) := rfl

/-- **C2.** For every non-empty sample sequence `S` (whose PCM payload fits
the 32-bit RIFF size fields, as any WAV file must), `save_audio` succeeds and
the produced WAV byte stream declares 1 channel, 2-byte samples, a 44100 Hz
frame rate, and exactly `S.length` PCM frames. -/
theorem c2_encode_header_matches (S : List Sample) (h1 : S ≠ [])
    (h2 : 2 * S.length < 4294967296) :
    ∃ wav, save_audio S .ok = .saved wav ∧
      declaredNChannels (wavBytes wav) = 1 ∧
      declaredSampWidth (wavBytes wav) = 2 ∧
      declaredFrameRate (wavBytes wav) = 44100 ∧
      declaredNFrames (wavBytes wav) = S.length := by
  refine ⟨⟨1, 2, 44100, S.map encodeSample⟩, ?_, ?_, ?_, ?_, ?_⟩
  · unfold save_audio
    rw [if_neg (by simpa using h1)]
  · unfold declaredNChannels
    rw [readU16_wavBytes_22]
    dsimp only
  · unfold declaredSampWidth
    rw [readU16_wavBytes_34]
    dsimp only
  · unfold declaredFrameRate
    rw [readU32_wavBytes_24]
    dsimp only
  · unfold declaredNFrames
    rw [readU32_wavBytes_40, readU16_wavBytes_22, readU16_wavBytes_34]
    have hlen : (List.map encodeSample S).length = S.length := List.length_map _ _
    dsimp only
    simp only [hlen]
    norm_num
    omega

/-- Witness for C2 at the one-sample sequence `[1]`. -/
theorem c2_encode_header_matches_witness :
    [(1 : Sample)] ≠ [] ∧ 2 * [(1 : Sample)].length < 4294967296 ∧
      (∃ wav, save_audio [(1 : Sample)] .ok = .saved wav ∧
        declaredNChannels (wavBytes wav) = 1 ∧
        declaredSampWidth (wavBytes wav) = 2 ∧
        declaredFrameRate (wavBytes wav) = 44100 ∧
        declaredNFrames (wavBytes wav) = [(1 : Sample)].length) :=
  ⟨by simp, by decide,
    c2_encode_header_matches [(1 : Sample)] (by simp) (by decide)⟩

/-- **C4.** The stored WAV data is `S.map encodeSample`; on `[-1, 1]` the
cast is exactly scale-by-32767-and-truncate (the 16-bit cast is lossless
there), and outside that range it wraps instead of clamping: the source
value `2.0` is stored as `-2`, not as the saturated `32767`. -/
theorem c4_unclamped_scale_truncate :
    (∀ S : List Sample, S ≠ [] →
        save_audio S .ok = .saved ⟨1, 2, 44100, S.map encodeSample⟩) ∧
    (∀ x : Sample, -1 ≤ x → x ≤ 1 → encodeSample x = ratTruncate (x * 32767)) ∧
    encodeSample 2 = -2 ∧
    encodeSample 2 ≠ clampInt16 (ratTruncate ((2 : ℚ) * 32767)) := by
  have hmul : (2 : ℚ) * 32767 = 65534 := by norm_num
  have hfloor : ⌊(65534 : ℚ)⌋ = 65534 := by norm_num [Int.floor_eq_iff]
  have htrunc : ratTruncate ((2 : ℚ) * 32767) = 65534 := by
    rw [hmul, ratTruncate_eq_floor _ (by norm_num), hfloor]
  refine ⟨?_, encodeSample_in_range, ?_, ?_⟩
  · intro S h
    unfold save_audio
    rw [if_neg (by simpa using h)]
  · unfold encodeSample
    rw [htrunc]
    unfold wrap16
    omega
  · unfold encodeSample clampInt16
    rw [htrunc]
    unfold wrap16
    omega

/-- Witness for C4 at `S = [1]` and `x = 1`. -/
theorem c4_unclamped_scale_truncate_witness :
    ([(1 : Sample)] ≠ [] ∧
      save_audio [(1 : Sample)] .ok = .saved ⟨1, 2, 44100, [(1 : Sample)].map encodeSample⟩) ∧
    (-1 ≤ (1 : Sample) ∧ (1 : Sample) ≤ 1 ∧
      encodeSample 1 = ratTruncate ((1 : ℚ) * 32767)) :=
  ⟨⟨by simp, c4_unclamped_scale_truncate.1 [(1 : Sample)] (by simp)⟩,
    ⟨by norm_num, by norm_num,
      c4_unclamped_scale_truncate.2.1 1 (by norm_num) (by norm_num)⟩⟩

/-- **C5.** Calling `stop()` on a recorder with no stream (in particular one
that was never started) returns an empty buffer and raises no exception,
whatever the driver would have done. -/
theorem c5_stop_never_started (r : AudioRecorder) (b : StopBehavior)
    (h : r.stream = none) : r.stop b = (r, some []) := by
  unfold AudioRecorder.stop
  rw [h]

/-- Witness for C5 at a freshly constructed recorder. -/
theorem c5_stop_never_started_witness :
    AudioRecorder.init.stream = none ∧
      AudioRecorder.init.stop .raiseOnStop = (AudioRecorder.init, some []) :=
  ⟨rfl, c5_stop_never_started AudioRecorder.init .raiseOnStop rfl⟩

/-- **C9.** `start()` clears the sample buffer before capture begins, so the
buffer returned by a following `stop()` is exactly the blocks fed by the
callback after that `start()`, never data left over in the recorder object. -/
theorem c9_start_resets_buffer (r : AudioRecorder) (blocks : List (List Sample)) :
    (r.start .ok).1.audio_data = [] ∧
      (((r.start .ok).1.feedAll blocks).stop .ok).2 = some blocks.flatten := by
  constructor
  · rfl
  · rw [feedAll_recording blocks (r.start .ok).1 rfl]
    simp [AudioRecorder.start, AudioRecorder.stop]

theorem reachable_inv (w : World) (h : Reachable w) : Inv w := by
  induction h with
  | init => exact inv_init
  | next w ev _ ih => exact inv_step w ev ih

/-- **C8.** In every reachable world at most one capture stream is active,
and a button press while the session is `Recording` (which the handler
dispatches to the stop branch, never to the start branch) never increases
the number of active capture streams. -/
theorem c8_single_capture_session (w : World) (h : Reachable w) :
    w.activeSessions ≤ 1 ∧
      ∀ e : PressEnv, w.app.recording = true →
        (step w (.press e)).activeSessions ≤ w.activeSessions := by
  obtain ⟨hleak, hidle, _⟩ := reachable_inv w h
  constructor
  · unfold World.activeSessions
    rw [hleak]
    split <;> omega
  · intro e hb
    unfold step pressStep
    dsimp only
    rw [if_neg (by simp [hb])]
    cases hr2 : w.app.audio_recorder with
    | none => exact le_rfl
    | some r =>
      dsimp only
      cases hs : r.stream with
      | none =>
        have hstop : r.stop e.stopBehavior = (r, some []) := by
          unfold AudioRecorder.stop
          rw [hs]
        rw [hstop]
        dsimp only
        simp [World.activeSessions, sessionActive, hr2]
      | some s =>
        cases e.stopBehavior with
        | raiseOnStop =>
          have hstop : r.stop .raiseOnStop = ({ r with recording := false }, none) := by
            unfold AudioRecorder.stop
            rw [hs]
          rw [hstop]
          dsimp only
          simp [World.activeSessions, sessionActive, hr2]
        | ok =>
          have hstop : r.stop .ok =
              ({ r with recording := false, stream := some .stopped },
                some r.audio_data) := by
            unfold AudioRecorder.stop
            rw [hs]
          rw [hstop]
          dsimp only
          by_cases hlen0 : r.audio_data.length > 0
          · rw [if_pos hlen0]
            split
            · simp [World.activeSessions, sessionActive, streamActive]
            · split <;> simp [World.activeSessions, sessionActive, streamActive]
            · exact le_rfl
          · rw [if_neg hlen0]
            simp [World.activeSessions, sessionActive, streamActive]

/-- A driver/pipeline environment where every external call succeeds. -/
def envStartOk : PressEnv :=
  { startBehavior := .ok, stopBehavior := .ok, saveBehavior := .ok,
    uploadBehavior := .ok, now := ⟨2026, 10, 12, 3, 4, 5⟩, bucket := "demo-bucket" }

/-- Like `envStartOk` but `stream.stop()` raises. -/
def envStopRaise : PressEnv := { envStartOk with stopBehavior := .raiseOnStop }

/-- Like `envStartOk` but the file write inside `save_audio` raises. -/
def envSaveRaise : PressEnv := { envStartOk with saveBehavior := .writeRaises }

/-- Like `envStartOk` but `upload_fileobj` raises. -/
def envUploadRaise : PressEnv := { envStartOk with uploadBehavior := .putRaises }

/-- Witness for C8: after one successful start, at most one session is active. -/
theorem c8_single_capture_session_witness :
    (step initWorld (.press envStartOk)).activeSessions ≤ 1 :=
  (c8_single_capture_session (step initWorld (.press envStartOk))
    (Reachable.next initWorld (.press envStartOk) Reachable.init)).1

/-- **C1 counterexample.** Start succeeds, so the controller is `Recording`;
then a stop request during which `CaptureSession.stop()` raises leaves the
controller's recording flag `true` after the request completes — the claim
that it is `false` regardless of the stop pipeline's outcome is false. -/
theorem c1_stop_counterexample :
    (step initWorld (.press envStartOk)).app.recording = true ∧
      (step (step initWorld (.press envStartOk))
        (.press envStopRaise)).app.recording = true :=
  ⟨rfl, rfl⟩

/-- **C1 (amended).** For every stop request issued while the controller is
`Recording`, the recording flag is `false` after the request completes
regardless of the encoder's and the uploader's outcome — provided
`CaptureSession.stop()` itself returns normally.  (When `stop()` raises, the
flag stays `true`, see the counterexample.) -/
theorem c1_amended_stop_reaches_idle (w : World) (e : PressEnv) (h : Reachable w)
    (hrec : w.app.recording = true) (hstop : e.stopBehavior = .ok) :
    (step w (.press e)).app.recording = false := by
  obtain ⟨_, _, hsome⟩ := reachable_inv w h
  unfold step pressStep
  dsimp only
  rw [hstop, if_neg (by simp [hrec])]
  cases hr : w.app.audio_recorder with
  | none => exact absurd hr (hsome hrec)
  | some r =>
    dsimp only
    cases hs : r.stream with
    | none =>
      have hstop2 : r.stop .ok = (r, some []) := by
        unfold AudioRecorder.stop
        rw [hs]
      rw [hstop2]
      dsimp only
      rw [if_neg (by simp)]
    | some s =>
      have hstop2 : r.stop .ok =
          ({ r with recording := false, stream := some .stopped },
            some r.audio_data) := by
        unfold AudioRecorder.stop
        rw [hs]
      rw [hstop2]
      dsimp only
      by_cases hlen0 : r.audio_data.length > 0
      · rw [if_pos hlen0]
        split
        · rfl
        · split <;> rfl
        · rename_i heq
          unfold save_audio at heq
          rw [if_neg (by omega)] at heq
          cases hsb : e.saveBehavior <;> rw [hsb] at heq <;> simp at heq
      · rw [if_neg hlen0]

/-- Witness for the amended C1: a normal start/stop round trip ends `Idle`. -/
theorem c1_amended_stop_reaches_idle_witness :
    (step (step initWorld (.press envStartOk)) (.press envStartOk)).app.recording
      = false :=
  c1_amended_stop_reaches_idle (step initWorld (.press envStartOk)) envStartOk
    (Reachable.next initWorld (.press envStartOk) Reachable.init) rfl rfl

/-- **C3.** `save_audio` on an empty buffer returns the failure value `False`
before any file is opened; in the handler, a stop with zero captured samples
changes no file, attempts no upload, surfaces the no-audio-data message, and
still leaves the controller `Idle`. -/
theorem c3_empty_input_no_artifact (b : SaveBehavior) (w : World) (e : PressEnv)
    (r : AudioRecorder) (hrec : w.app.recording = true)
    (hr : w.app.audio_recorder = some r) (hdata : r.audio_data = [])
    (hstop : e.stopBehavior = .ok) :
    save_audio [] b = .emptyInput ∧
      (step w (.press e)).file = w.file ∧
      (step w (.press e)).uploadAttempts = w.uploadAttempts ∧
      (step w (.press e)).app.error_message = some .noAudioData ∧
      (step w (.press e)).app.recording = false := by
  refine ⟨rfl, ?_⟩
  unfold step pressStep
  dsimp only
  rw [hstop, if_neg (by simp [hrec]), hr]
  dsimp only
  cases hs : r.stream with
  | none =>
    have hstop2 : r.stop .ok = (r, some []) := by
      unfold AudioRecorder.stop
      rw [hs]
    rw [hstop2]
    dsimp only
    rw [if_neg (by simp)]
    exact ⟨rfl, rfl, rfl, rfl⟩
  | some s =>
    have hstop2 : r.stop .ok =
        ({ r with recording := false, stream := some .stopped },
          some r.audio_data) := by
      unfold AudioRecorder.stop
      rw [hs]
    rw [hstop2]
    dsimp only
    rw [hdata, if_neg (by simp)]
    exact ⟨rfl, rfl, rfl, rfl⟩

/-- Witness for C3 after a successful start with no captured samples. -/
theorem c3_empty_input_no_artifact_witness :
    save_audio [] .ok = .emptyInput ∧
      (step (step initWorld (.press envStartOk)) (.press envStartOk)).file =
        (step initWorld (.press envStartOk)).file ∧
      (step (step initWorld (.press envStartOk)) (.press envStartOk)).uploadAttempts =
        (step initWorld (.press envStartOk)).uploadAttempts ∧
      (step (step initWorld (.press envStartOk)) (.press envStartOk)).app.error_message =
        some .noAudioData ∧
      (step (step initWorld (.press envStartOk)) (.press envStartOk)).app.recording =
        false :=
  c3_empty_input_no_artifact .ok (step initWorld (.press envStartOk)) envStartOk
    ⟨[], true, some .active⟩ rfl rfl rfl rfl

/-- **C7.** When the pipeline reaches the upload step (stop returned data and
the encoder succeeded), the upload is attempted exactly once and the local
temporary file is deleted afterwards whether that upload succeeds or fails. -/
theorem c7_temp_file_removed (w : World) (e : PressEnv) (r : AudioRecorder)
    (hrec : w.app.recording = true) (hr : w.app.audio_recorder = some r)
    (hstream : r.stream ≠ none) (hdata : r.audio_data ≠ [])
    (hstop : e.stopBehavior = .ok) (hsave : e.saveBehavior = .ok) :
    (step w (.press e)).file = .absent ∧
      (step w (.press e)).uploadAttempts.length = w.uploadAttempts.length + 1 := by
  obtain ⟨s, hs⟩ : ∃ s, r.stream = some s := by
    cases hsx : r.stream with
    | none => exact absurd hsx hstream
    | some s => exact ⟨s, rfl⟩
  unfold step pressStep
  dsimp only
  rw [hstop, hsave, if_neg (by simp [hrec]), hr]
  dsimp only
  have hstop2 : r.stop .ok =
      ({ r with recording := false, stream := some .stopped },
        some r.audio_data) := by
    unfold AudioRecorder.stop
    rw [hs]
  rw [hstop2]
  dsimp only
  rw [if_pos (List.length_pos.mpr hdata)]
  have hsave2 : save_audio r.audio_data .ok =
      .saved ⟨1, 2, 44100, r.audio_data.map encodeSample⟩ := by
    unfold save_audio
    rw [if_neg (by simpa using hdata)]
  rw [hsave2]
  dsimp only
  cases e.uploadBehavior <;> dsimp only [upload_to_s3] <;> exact ⟨rfl, by simp⟩

/-- Witness for C7 on the upload-failure path after capturing one block. -/
theorem c7_temp_file_removed_witness :
    (step (step (step initWorld (.press envStartOk)) (.feed [1/2]))
        (.press envUploadRaise)).file = .absent ∧
      (step (step (step initWorld (.press envStartOk)) (.feed [1/2]))
        (.press envUploadRaise)).uploadAttempts.length =
        (step (step initWorld (.press envStartOk)) (.feed [1/2])).uploadAttempts.length
          + 1 :=
  c7_temp_file_removed (step (step initWorld (.press envStartOk)) (.feed [1/2]))
    envUploadRaise ⟨[1/2], true, some .active⟩ rfl rfl (by simp) (by simp) rfl rfl

/-- **C10.** If `save_audio` raises after opening the output file, control
jumps to the handler at line 207: the partially written temporary WAV stays
on disk, no upload is attempted, and the processing error is surfaced. -/
theorem c10_encode_failure_orphans_file (w : World) (e : PressEnv)
    (r : AudioRecorder) (hrec : w.app.recording = true)
    (hr : w.app.audio_recorder = some r) (hstream : r.stream ≠ none)
    (hdata : r.audio_data ≠ []) (hstop : e.stopBehavior = .ok)
    (hsave : e.saveBehavior = .writeRaises) :
    (step w (.press e)).file = .incompleteWav ∧
      (step w (.press e)).uploadAttempts = w.uploadAttempts ∧
      (step w (.press e)).app.error_message = some .errorProcessing := by
  obtain ⟨s, hs⟩ : ∃ s, r.stream = some s := by
    cases hsx : r.stream with
    | none => exact absurd hsx hstream
    | some s => exact ⟨s, rfl⟩
  unfold step pressStep
  dsimp only
  rw [hstop, hsave, if_neg (by simp [hrec]), hr]
  dsimp only
  have hstop2 : r.stop .ok =
      ({ r with recording := false, stream := some .stopped },
        some r.audio_data) := by
    unfold AudioRecorder.stop
    rw [hs]
  rw [hstop2]
  dsimp only
  rw [if_pos (List.length_pos.mpr hdata)]
  have hsave2 : save_audio r.audio_data .writeRaises = .failed := by
    unfold save_audio
    rw [if_neg (by simpa using hdata)]
  rw [hsave2]
  exact ⟨rfl, rfl, rfl⟩

/-- Witness for C10 after capturing one block. -/
theorem c10_encode_failure_orphans_file_witness :
    (step (step (step initWorld (.press envStartOk)) (.feed [1/2]))
        (.press envSaveRaise)).file = .incompleteWav ∧
      (step (step (step initWorld (.press envStartOk)) (.feed [1/2]))
        (.press envSaveRaise)).uploadAttempts =
        (step (step initWorld (.press envStartOk)) (.feed [1/2])).uploadAttempts ∧
      (step (step (step initWorld (.press envStartOk)) (.feed [1/2]))
        (.press envSaveRaise)).app.error_message = some .errorProcessing :=
  c10_encode_failure_orphans_file
    (step (step initWorld (.press envStartOk)) (.feed [1/2])) envSaveRaise
    ⟨[1/2], true, some .active⟩ rfl rfl (by simp) (by simp) rfl rfl

/-- **C6.** A successful upload stores the object under the key
`source/<YYYYMMDD_HHMMSS UTC timestamp>_<basename of the filename>` in the
configured bucket and returns a presigned URL for that key whose validity
window is exactly 3600 seconds.  The last two conjuncts pin down the
`YYYYMMDD_HHMMSS` zero-padded shape of the timestamp and the behaviour of
`basename` on a concrete instant and path. -/
theorem c6_upload_key_and_expiry (filename : String) (t : UTCTime) (bucket : String) :
    (upload_to_s3 filename t bucket .ok).stored = true ∧
      (upload_to_s3 filename t bucket .ok).attempt.bucket = bucket ∧
      (upload_to_s3 filename t bucket .ok).attempt.key =
        S3_FOLDER ++ "/" ++ formatTimestamp t ++ "_" ++ basename filename ∧
      (upload_to_s3 filename t bucket .ok).url =
        some { bucket := bucket
               key := S3_FOLDER ++ "/" ++ formatTimestamp t ++ "_" ++ basename filename
               expiresIn := 3600 } ∧
      formatTimestamp ⟨2026, 10, 12, 3, 4, 5⟩ = "20261012_030405" ∧
      basename "recordings/clip.wav" = "clip.wav" :=
  ⟨rfl, rfl, rfl, rfl, rfl, rfl⟩

end VoiceRec
